import Mathlib

/-!
# Verification of the go-weather mock API server

Shallow embedding of `src/main.go` and `src/unnamed/part_000` (the Sleeper
interface file) of the `salus-templates/go-weather` repository.

Modelling choices:
* Go's shared `*rand.Rand` is modelled as a stream of naturals `g : Nat → Nat`
  together with a cursor `i`; each draw consumes one stream element.
  `rand.Intn n` returns a uniform value in `[0, n)`, modelled as `g i % n`;
  `rand.Float64` returns a uniform value `k / 2^53` with `k ∈ [0, 2^53)`,
  modelled as `(g i % 2^53) / 2^53 : ℚ`.
* `time.Time` is modelled as an `Int` of nanoseconds since the epoch, the
  handler receiving `now : Int`; `time.Hour` is `3600000000000` nanoseconds.
* The `float64` temperature sum `float64(Intn(35)+5) + Float64()` is modelled
  over ℚ with explicit IEEE-754 binary64 rounding: both operands are exactly
  representable doubles (a small integer, and `k/2^53`), and the hardware
  addition returns the exact rational sum rounded to nearest with ties to
  even at the 52-bit mantissa granularity of the result's binade
  (`roundF64`). The model is exact for arguments `≥ 1`, which covers every
  sum the program can form (they are all `≥ 5`); rounding matters: for
  integer part 39 and fraction `1 − 2^-53` the true sum `40 − 2^-53` rounds
  up to exactly `40.0`.
* A Go nil slice is distinguished from a non-nil one by `Option`:
  `DataResponse.readings = none` models the nil `Readings` field.
* The call to the injected `Sleeper` and the status-code selection are
  recorded in an event trace, so that the order and multiplicity of the
  side effects performed by `weatherHandler` can be stated.
* `encoding/json` serialization of `DataResponse` is modelled by
  `encodeDataResponse`, following the struct tags in the source:
  `Readings []WeatherReading json:"readings"` has no `omitempty`, so the
  key is always emitted and a nil slice encodes as JSON `null`;
  `Message string json:"message,omitempty"` is dropped exactly when the
  string is empty.
-/

set_option autoImplicit false

namespace GoWeather

/-- The process-wide random source `r *rand.Rand` of `main.go`, modelled as a
stream of naturals `g` with a cursor `i`; each draw reads `g i` and advances. -/
structure Rng where
  g : Nat → Nat
  i : Nat

/-- Advance the random source past one draw. -/
def Rng.next (r : Rng) : Rng := ⟨r.g, r.i + 1⟩

/-- `r.Intn n` of Go `math/rand`: a uniform integer in `[0, n)` (for `n > 0`),
modelled as the current stream element reduced mod `n`. -/
def Rng.intn (r : Rng) (n : Nat) : Nat := r.g r.i % n

/-- `r.Float64()` of Go `math/rand`: a uniform value `k / 2^53`, `k ∈ [0, 2^53)`. -/
def Rng.float64 (r : Rng) : ℚ := ((r.g r.i % 2 ^ 53 : ℕ) : ℚ) / 2 ^ 53

/-- `time.Hour` in nanoseconds (Go `time.Duration` counts nanoseconds). -/
def hourNs : Int := 3600000000000

/-- Fuel-driven base-2 logarithm (`natLog2 n` is `⌊log₂ n⌋` for `n ≥ 1`),
structurally recursive so the kernel can evaluate it. -/
def natLog2Aux : Nat → Nat → Nat
  | 0, _ => 0
  | fuel + 1, n => if 2 ≤ n then natLog2Aux fuel (n / 2) + 1 else 0

/-- `⌊log₂ n⌋` for `n ≥ 1` (and `0` at `0`): the binade exponent of `n`. -/
def natLog2 (n : Nat) : Nat := natLog2Aux n n

/-- Round a rational to the nearest integer, ties to even — the IEEE-754
default rounding direction used by Go's float64 arithmetic. -/
def rne (x : ℚ) : Int :=
  if x - ⌊x⌋ < 1 / 2 then ⌊x⌋
  else if 1 / 2 < x - ⌊x⌋ then ⌊x⌋ + 1
  else if ⌊x⌋ % 2 = 0 then ⌊x⌋ else ⌊x⌋ + 1

/-- IEEE-754 binary64 rounding of a rational `x ≥ 1` (round to nearest, ties
to even): the binade of `x` is `[2^e, 2^(e+1))` with `e = ⌊log₂ ⌊x⌋⌋`, and
`x` is rounded to the nearest multiple of the binade's ulp `2^(e-52)`.
Arguments below `1` are returned unrounded; every temperature sum the
program forms is `≥ 5`, so the model is exact on the reachable range. -/
def roundF64 (x : ℚ) : ℚ :=
  if 1 ≤ x then
    (rne (x / (2 ^ natLog2 ⌊x⌋.toNat / 2 ^ 52)) : ℚ) *
      (2 ^ natLog2 ⌊x⌋.toNat / 2 ^ 52)
  else x

/-- A concrete random stream exhibiting the extreme temperature draw of the
first generated reading: `Intn(35) = 34` (integer part 39) and
`Float64() = (2^53 − 1)/2^53 = 1 − 2^-53`, whose rounded sum is exactly 40. -/
def cexStream : Nat → Nat :=
  fun i => if i = 2 then 34 else if i = 3 then 2 ^ 53 - 1 else 0

/-- `WeatherReading` of `main.go`; `timestamp` is nanoseconds since the epoch. -/
structure WeatherReading where
  city : String
  timestamp : Int
  temperature : ℚ
  humidity : Int
  condition : String
  deriving DecidableEq, Repr

/-- `DataResponse` of `main.go`. `readings = none` models a nil Go slice
(the zero value of the `Readings` field), `some l` a non-nil slice. -/
structure DataResponse where
  readings : Option (List WeatherReading)
  message : String
  deriving DecidableEq, Repr

/-- The `cities` slice of `generateDummyWeatherReadings`. -/
def cities : List String :=
  ["New York", "London", "Paris", "Tokyo", "Sydney", "Lagos", "Dubai", "Rio"]

/-- The `conditions` slice of `generateDummyWeatherReadings`. -/
def conditions : List String :=
  ["Sunny", "Partly Cloudy", "Cloudy", "Rainy", "Stormy", "Foggy", "Snowy"]

/-- `generateDummyWeatherReadings(count)` of `main.go`: builds `count` readings,
drawing per reading, in source order: city index, hour offset (`Intn(24)-12`),
integer temperature part (`Intn(35)+5`), fractional part (`Float64()`),
humidity (`Intn(80)+20`), condition index. Returns the readings together with
the advanced random source. -/
def generateDummyWeatherReadings : Nat → Int → Rng → List WeatherReading × Rng
  | 0, _, r => ([], r)
  | k + 1, now, r =>
      let cityIdx := r.intn cities.length
      let r1 := r.next
      let hourOff := r1.intn 24
      let r2 := r1.next
      let tempInt := r2.intn 35
      let r3 := r2.next
      let tempFrac := r3.float64
      let r4 := r3.next
      let humRnd := r4.intn 80
      let r5 := r4.next
      let condIdx := r5.intn conditions.length
      let r6 := r5.next
      let w : WeatherReading :=
        { city := cities.getD cityIdx ""
          timestamp := now + ((hourOff : Int) - 12) * hourNs
          temperature := roundF64 (((tempInt : ℚ) + 5) + tempFrac)
          humidity := (humRnd : Int) + 20
          condition := conditions.getD condIdx "" }
      let rest := generateDummyWeatherReadings k now r6
      (w :: rest.1, rest.2)

/-- `statusCodes2xx` of `getResponseStatusCode`. -/
def statusCodes2xx : List Int := [200, 201, 202, 204]

/-- `statusCodes4xx` of `getResponseStatusCode`. -/
def statusCodes4xx : List Int := [400, 401, 404, 403, 405]

/-- `statusCodes5xx` of `getResponseStatusCode`. -/
def statusCodes5xx : List Int := [500, 501, 502, 503, 504]

/-- `getResponseStatusCode()` of `main.go`: draws `randomNumber ∈ [0,100)`,
then picks uniformly inside the 2xx bucket when `randomNumber < 70`, the 4xx
bucket when `70 ≤ randomNumber < 85`, the 5xx bucket otherwise. -/
def getResponseStatusCode (r : Rng) : Int × Rng :=
  let randomNumber := r.intn 100
  let r1 := r.next
  if randomNumber < 70 then
    (statusCodes2xx.getD (r1.intn statusCodes2xx.length) 0, r1.next)
  else if randomNumber < 85 then
    (statusCodes4xx.getD (r1.intn statusCodes4xx.length) 0, r1.next)
  else
    (statusCodes5xx.getD (r1.intn statusCodes5xx.length) 0, r1.next)

/-- `strconv.Atoi` of the Go standard library, restricted to what the handler
needs: an optional sign followed by at least one decimal digit parses to that
integer; anything else (empty string, stray characters) is an error, `none`.
Digit-accumulation helper. -/
def atoiDigits : List Char → Nat → Option Nat
  | [], acc => some acc
  | c :: cs, acc =>
      if c.isDigit then atoiDigits cs (acc * 10 + (c.toNat - 48)) else none

/-- `strconv.Atoi(s)`: `some v` on a well-formed decimal integer, else `none`.
(Go additionally reports a range error for values outside int64 together with
a clamped value; since any error leads the handler to the same default, the
error cases are collapsed to `none`.) -/
def atoi (s : String) : Option Int :=
  match s.data with
  | [] => none
  | '-' :: [] => none
  | '-' :: cs => (atoiDigits cs 0).map (fun n => -(n : Int))
  | '+' :: [] => none
  | '+' :: cs => (atoiDigits cs 0).map (fun n => (n : Int))
  | cs => (atoiDigits cs 0).map (fun n => (n : Int))

/-- The size-validation step of `weatherHandler` (`main.go` lines 86-91):
`strconv.Atoi` on the `size` query parameter; on error, or a value below 10 or
above 100, the size defaults to 10. An absent parameter is the empty string
(Go's `Query().Get` returns `""`), which `Atoi` rejects. -/
def effectiveSize (sizeStr : String) : Int :=
  match atoi sizeStr with
  | none => 10
  | some v => if v < 10 ∨ v > 100 then 10 else v

/-- The observable side effects of one request: the single `s.Sleep(d)` call
on the injected `Sleeper` (duration in milliseconds) and the status-code
selection, in execution order. -/
inductive Event where
  | sleep (ms : Nat)
  | selectStatus (code : Int)
  deriving DecidableEq, Repr

/-- `weatherHandler(s, w, req)` of `main.go`: validates `size`, draws a delay
in `[0, 5000]` ms and sleeps on the injected `Sleeper`, selects a status code,
then assembles the body: on a 2xx code, the generated readings and a success
message; otherwise a nil readings slice and an error message. Returns the
event trace, the status code written, and the `DataResponse` encoded. -/
def weatherHandler (sizeStr : String) (now : Int) (r : Rng) :
    List Event × Int × DataResponse :=
  let size := effectiveSize sizeStr
  let delayMs := r.intn 5001
  let r1 := r.next
  let sc := getResponseStatusCode r1
  let statusCode := sc.1
  if 200 ≤ statusCode ∧ statusCode < 300 then
    let readings := (generateDummyWeatherReadings size.toNat now sc.2).1
    ([Event.sleep delayMs, Event.selectStatus statusCode], statusCode,
      { readings := some readings
        message := "Successfully retrieved " ++ toString readings.length
          ++ " weather readings." })
  else
    ([Event.sleep delayMs, Event.selectStatus statusCode], statusCode,
      { readings := none
        message := "An error occurred with status code " ++ toString statusCode
          ++ ". This is a dummy error for testing." })

/-- JSON values, as far as the serialized response body needs them. -/
inductive Json where
  | null
  | str (s : String)
  | num (q : ℚ)
  | int (n : Int)
  | arr (xs : List Json)
  | obj (fields : List (String × Json))

/-- `encoding/json` encoding of one `WeatherReading`, tags from `main.go`.
(Go renders the timestamp as an RFC 3339 string; here it stays the raw
nanosecond count, which no claim inspects.) -/
def encodeWeatherReading (w : WeatherReading) : Json :=
  Json.obj [("city", Json.str w.city), ("timestamp", Json.int w.timestamp),
    ("temperature", Json.num w.temperature), ("humidity", Json.int w.humidity),
    ("condition", Json.str w.condition)]

/-- `encoding/json` encoding of `DataResponse`, following the struct tags:
`readings` has no `omitempty`, so the key is always present and a nil slice
(`none`) encodes as `null`; `message` carries `omitempty`, so it is dropped
exactly when the string is empty. Fields appear in declaration order. -/
def encodeDataResponse (d : DataResponse) : List (String × Json) :=
  ("readings",
    match d.readings with
    | none => Json.null
    | some l => Json.arr (l.map encodeWeatherReading)) ::
  (if d.message = "" then [] else [("message", Json.str d.message)])

/-! ## Helper lemmas -/

theorem Rng.intn_lt (r : Rng) {n : Nat} (h : 0 < n) : r.intn n < n :=
  Nat.mod_lt _ h

theorem Rng.float64_nonneg (r : Rng) : 0 ≤ r.float64 := by
  unfold Rng.float64
  positivity

theorem Rng.float64_lt_one (r : Rng) : r.float64 < 1 := by
  unfold Rng.float64
  rw [div_lt_one (by positivity)]
  exact_mod_cast Nat.mod_lt _ (by positivity)

theorem getD_mem {α : Type} (l : List α) (n : Nat) (d : α) (h : n < l.length) :
    l.getD n d ∈ l := by
  rw [List.getD_eq_getElem l d h]
  exact List.getElem_mem h

theorem rne_le {x : ℚ} {N : Int} (h : x < (N : ℚ)) : rne x ≤ N := by
  have hf : ⌊x⌋ < N := Int.floor_lt.mpr h
  unfold rne
  split
  · omega
  · split
    · omega
    · split <;> omega

theorem le_rne {x : ℚ} {N : Int} (h : (N : ℚ) ≤ x) : N ≤ rne x := by
  have hf : N ≤ ⌊x⌋ := Int.le_floor.mpr h
  unfold rne
  split
  · omega
  · split
    · omega
    · split <;> omega

/-- The binary64 rounding of a sum in `[5, 40)` stays in `[5, 40]`: rounding
can reach the representable value `40` from just below, but never overshoot
it, and never dips under `5`. -/
theorem roundF64_bounds {x : ℚ} (h5 : 5 ≤ x) (h40 : x < 40) :
    5 ≤ roundF64 x ∧ roundF64 x ≤ 40 := by
  have h1 : (1 : ℚ) ≤ x := by linarith
  have hfloor : ⌊x⌋ < 40 := Int.floor_lt.mpr (by exact_mod_cast h40)
  have hfloor0 : (0 : Int) ≤ ⌊x⌋ := by
    have := Int.le_floor.mpr (show ((0 : Int) : ℚ) ≤ x by push_cast; linarith)
    omega
  unfold roundF64
  rw [if_pos h1]
  set e := natLog2 ⌊x⌋.toNat with hedef
  have he : e ≤ 52 := by
    have hball : ∀ n < 40, natLog2 n ≤ 52 := by decide
    exact hball _ (by omega)
  have hulp : (0 : ℚ) < 2 ^ e / 2 ^ 52 := by positivity
  have hkey : ((2 : ℚ) ^ (52 - e)) * (2 ^ e / 2 ^ 52) = 1 := by
    field_simp
    rw [← pow_add, Nat.sub_add_cancel he]
  constructor
  · have hM : ((5 * 2 ^ (52 - e) : Int) : ℚ) ≤ x / (2 ^ e / 2 ^ 52) := by
      rw [le_div_iff₀ hulp]
      push_cast
      calc (5 : ℚ) * 2 ^ (52 - e) * (2 ^ e / 2 ^ 52)
          = 5 * (2 ^ (52 - e) * (2 ^ e / 2 ^ 52)) := by ring
        _ = 5 := by rw [hkey]; ring
        _ ≤ x := h5
    calc (5 : ℚ) = ((5 * 2 ^ (52 - e) : Int) : ℚ) * (2 ^ e / 2 ^ 52) := by
          push_cast
          rw [mul_assoc, hkey]
          ring
      _ ≤ (rne (x / (2 ^ e / 2 ^ 52)) : ℚ) * (2 ^ e / 2 ^ 52) := by
          apply mul_le_mul_of_nonneg_right _ (le_of_lt hulp)
          exact_mod_cast le_rne hM
  · have hN : x / (2 ^ e / 2 ^ 52) < ((40 * 2 ^ (52 - e) : Int) : ℚ) := by
      rw [div_lt_iff₀ hulp]
      push_cast
      calc x < 40 := h40
        _ = 40 * 2 ^ (52 - e) * (2 ^ e / 2 ^ 52) := by rw [mul_assoc, hkey]; ring
    calc (rne (x / (2 ^ e / 2 ^ 52)) : ℚ) * (2 ^ e / 2 ^ 52)
        ≤ ((40 * 2 ^ (52 - e) : Int) : ℚ) * (2 ^ e / 2 ^ 52) := by
          apply mul_le_mul_of_nonneg_right _ (le_of_lt hulp)
          exact_mod_cast rne_le hN
      _ = 40 := by
          push_cast
          rw [mul_assoc, hkey]
          ring

theorem effectiveSize_bounds (s : String) :
    10 ≤ effectiveSize s ∧ effectiveSize s ≤ 100 := by
  unfold effectiveSize
  cases atoi s with
  | none => exact ⟨le_refl _, by norm_num⟩
  | some v =>
      dsimp only
      split
      · exact ⟨le_refl _, by norm_num⟩
      · omega

theorem generateDummyWeatherReadings_length (count : Nat) (now : Int) (r : Rng) :
    (generateDummyWeatherReadings count now r).1.length = count := by
  induction count generalizing r with
  | zero => rfl
  | succ k ih => simp [generateDummyWeatherReadings, ih]

/-- Every reading the generator emits satisfies the field bounds: city and
condition from the fixed sets, temperature in `[5, 40]` (binary64 rounding
can land exactly on `40`), humidity in `[20, 99]`, timestamp within
`[now − 12h, now + 11h]`. -/
theorem generateDummyWeatherReadings_bounds (count : Nat) (now : Int) (r : Rng)
    (w : WeatherReading) (hw : w ∈ (generateDummyWeatherReadings count now r).1) :
    w.city ∈ cities ∧
    (-12) * hourNs ≤ w.timestamp - now ∧ w.timestamp - now ≤ 11 * hourNs ∧
    5 ≤ w.temperature ∧ w.temperature ≤ 40 ∧
    20 ≤ w.humidity ∧ w.humidity ≤ 99 ∧
    w.condition ∈ conditions := by
  induction count generalizing r with
  | zero => simp [generateDummyWeatherReadings] at hw
  | succ k ih =>
      simp only [generateDummyWeatherReadings, List.mem_cons] at hw
      rcases hw with h | h
      · subst h
        refine ⟨getD_mem _ _ _ (Rng.intn_lt _ (by decide)), ?_, ?_, ?_, ?_, ?_, ?_,
          getD_mem _ _ _ (Rng.intn_lt _ (by decide))⟩
        · have h24 : Rng.intn (Rng.next r) 24 < 24 := Rng.intn_lt _ (by norm_num)
          dsimp only
          unfold hourNs
          omega
        · have h24 : Rng.intn (Rng.next r) 24 < 24 := Rng.intn_lt _ (by norm_num)
          dsimp only
          unfold hourNs
          omega
        · have hf0 := Rng.float64_nonneg (Rng.next (Rng.next (Rng.next r)))
          dsimp only
          have h35q0 : (0 : ℚ) ≤ (Rng.intn (Rng.next (Rng.next r)) 35 : ℚ) := by positivity
          exact (roundF64_bounds (by linarith)
            (by
              have hf1 := Rng.float64_lt_one (Rng.next (Rng.next (Rng.next r)))
              have h35 : Rng.intn (Rng.next (Rng.next r)) 35 < 35 :=
                Rng.intn_lt _ (by norm_num)
              have h35q : (Rng.intn (Rng.next (Rng.next r)) 35 : ℚ) ≤ 34 := by
                exact_mod_cast Nat.le_of_lt_succ h35
              linarith)).1
        · have hf0 := Rng.float64_nonneg (Rng.next (Rng.next (Rng.next r)))
          have hf1 := Rng.float64_lt_one (Rng.next (Rng.next (Rng.next r)))
          have h35 : Rng.intn (Rng.next (Rng.next r)) 35 < 35 := Rng.intn_lt _ (by norm_num)
          dsimp only
          have h35q : (Rng.intn (Rng.next (Rng.next r)) 35 : ℚ) ≤ 34 := by
            exact_mod_cast Nat.le_of_lt_succ h35
          have h35q0 : (0 : ℚ) ≤ (Rng.intn (Rng.next (Rng.next r)) 35 : ℚ) := by positivity
          exact (roundF64_bounds (by linarith) (by linarith)).2
        · have h80 : Rng.intn (Rng.next (Rng.next (Rng.next (Rng.next r)))) 80 < 80 :=
            Rng.intn_lt _ (by norm_num)
          dsimp only
          omega
        · have h80 : Rng.intn (Rng.next (Rng.next (Rng.next (Rng.next r)))) 80 < 80 :=
            Rng.intn_lt _ (by norm_num)
          dsimp only
          omega
      · exact ih _ h

theorem statusCodes2xx_pick (j : Nat) (h : j < 4) :
    statusCodes2xx.getD j 0 ∈ statusCodes2xx ∧
    statusCodes2xx.getD j 0 ∉ statusCodes4xx ∧
    statusCodes2xx.getD j 0 ∉ statusCodes5xx ∧
    200 ≤ statusCodes2xx.getD j 0 ∧ statusCodes2xx.getD j 0 < 300 := by
  interval_cases j <;> decide

theorem statusCodes4xx_pick (j : Nat) (h : j < 5) :
    statusCodes4xx.getD j 0 ∈ statusCodes4xx ∧
    statusCodes4xx.getD j 0 ∉ statusCodes2xx ∧
    statusCodes4xx.getD j 0 ∉ statusCodes5xx ∧
    400 ≤ statusCodes4xx.getD j 0 ∧ statusCodes4xx.getD j 0 < 500 := by
  interval_cases j <;> decide

theorem statusCodes5xx_pick (j : Nat) (h : j < 5) :
    statusCodes5xx.getD j 0 ∈ statusCodes5xx ∧
    statusCodes5xx.getD j 0 ∉ statusCodes2xx ∧
    statusCodes5xx.getD j 0 ∉ statusCodes4xx ∧
    500 ≤ statusCodes5xx.getD j 0 ∧ statusCodes5xx.getD j 0 < 600 := by
  interval_cases j <;> decide

/-- The extreme sum `39 + (2^53 − 1)/2^53 = (40·2^53 − 1)/2^53 = 40 − 2^-53`
rounds to exactly `40`: its binade is `[32, 64)` with ulp `2^-47`, and the
distance to `40` (namely `2^-53`) is far below half an ulp. -/
theorem roundF64_at_max : roundF64 ((40 * 2 ^ 53 - 1 : ℚ) / 2 ^ 53) = 40 := by
  have hfl : ⌊(40 * 2 ^ 53 - 1 : ℚ) / 2 ^ 53⌋ = 39 := by
    rw [Int.floor_eq_iff]
    refine ⟨by norm_num, by norm_num⟩
  unfold roundF64
  rw [if_pos (by norm_num), hfl]
  rw [show natLog2 (39 : Int).toNat = 5 from by decide]
  have harg : ((40 * 2 ^ 53 - 1 : ℚ) / 2 ^ 53) / ((2 : ℚ) ^ 5 / 2 ^ 52) =
      (40 * 2 ^ 53 - 1) / 2 ^ 6 := by
    norm_num
  rw [harg]
  have hfl2 : ⌊(40 * 2 ^ 53 - 1 : ℚ) / 2 ^ 6⌋ = 40 * 2 ^ 47 - 1 := by
    rw [Int.floor_eq_iff]
    refine ⟨by norm_num, by norm_num⟩
  unfold rne
  rw [hfl2]
  rw [if_neg (by push_cast; norm_num), if_pos (by push_cast; norm_num)]
  push_cast
  norm_num

/-! ## Claim theorems -/

/-- C2: the effective size equals the integer value of the `size` query
parameter when it parses and lies in `[10, 100]`, and equals `10` in every
other case (absent — the empty string —, non-numeric, below 10, above 100);
`effectiveSize` is a total function, so no error reaches the caller. -/
theorem claim_C2_effective_size :
    (∀ (s : String) (v : Int), atoi s = some v → 10 ≤ v → v ≤ 100 →
      effectiveSize s = v) ∧
    (∀ s : String, (∀ v : Int, atoi s = some v → v < 10 ∨ 100 < v) →
      effectiveSize s = 10) := by
  constructor
  · intro s v h h10 h100
    unfold effectiveSize
    rw [h]
    dsimp only
    rw [if_neg (by omega)]
  · intro s h
    unfold effectiveSize
    cases hv : atoi s with
    | none => rfl
    | some v =>
        dsimp only
        rw [if_pos (h v hv)]

/-- C3: `getResponseStatusCode`, as a function of the first draw
`n = intn 100 ∈ [0, 100)` and a uniform within-bucket pick, returns a 2xx
code from {200, 201, 202, 204} exactly when `n < 70`, a 4xx code from
{400, 401, 404, 403, 405} exactly when `70 ≤ n < 85`, a 5xx code from
{500, 501, 502, 503, 504} exactly when `85 ≤ n`, and never any other code. -/
theorem claim_C3_status_buckets (r : Rng) :
    r.intn 100 < 100 ∧
    ((getResponseStatusCode r).1 ∈ statusCodes2xx ↔ r.intn 100 < 70) ∧
    ((getResponseStatusCode r).1 ∈ statusCodes4xx ↔
      (70 ≤ r.intn 100 ∧ r.intn 100 < 85)) ∧
    ((getResponseStatusCode r).1 ∈ statusCodes5xx ↔ 85 ≤ r.intn 100) ∧
    ((getResponseStatusCode r).1 ∈ statusCodes2xx ∨
      (getResponseStatusCode r).1 ∈ statusCodes4xx ∨
      (getResponseStatusCode r).1 ∈ statusCodes5xx) := by
  refine ⟨Rng.intn_lt r (by norm_num), ?_⟩
  unfold getResponseStatusCode
  by_cases h70 : r.intn 100 < 70
  · rw [if_pos h70]
    obtain ⟨hm, h4, h5, _, _⟩ :=
      statusCodes2xx_pick (Rng.intn (Rng.next r) statusCodes2xx.length)
        (Rng.intn_lt _ (by decide))
    exact ⟨⟨fun _ => h70, fun _ => hm⟩,
      ⟨fun hc => absurd hc h4, fun hc => absurd hc.1 (by omega)⟩,
      ⟨fun hc => absurd hc h5, fun hc => absurd hc (by omega)⟩,
      Or.inl hm⟩
  · by_cases h85 : r.intn 100 < 85
    · rw [if_neg h70, if_pos h85]
      obtain ⟨hm, h2, h5, _, _⟩ :=
        statusCodes4xx_pick (Rng.intn (Rng.next r) statusCodes4xx.length)
          (Rng.intn_lt _ (by decide))
      exact ⟨⟨fun hc => absurd hc h2, fun hc => absurd hc h70⟩,
        ⟨fun _ => ⟨by omega, h85⟩, fun _ => hm⟩,
        ⟨fun hc => absurd hc h5, fun hc => absurd hc (by omega)⟩,
        Or.inr (Or.inl hm)⟩
    · rw [if_neg h70, if_neg h85]
      obtain ⟨hm, h2, h4, _, _⟩ :=
        statusCodes5xx_pick (Rng.intn (Rng.next r) statusCodes5xx.length)
          (Rng.intn_lt _ (by decide))
      exact ⟨⟨fun hc => absurd hc h2, fun hc => absurd hc h70⟩,
        ⟨fun hc => absurd hc h4, fun hc => absurd hc.2 h85⟩,
        ⟨fun _ => by omega, fun _ => hm⟩,
        Or.inr (Or.inr hm)⟩

/-- C9: `generateDummyWeatherReadings` is total for every `count ≥ 0`: it
returns exactly `count` readings (the empty list for `count = 0`), and the
random indices it draws into the city and condition tables are always in
bounds, so no indexing can go out of range. -/
theorem claim_C9_generator_total :
    (∀ (count : Nat) (now : Int) (r : Rng),
      (generateDummyWeatherReadings count now r).1.length = count) ∧
    (∀ r : Rng, r.intn cities.length < cities.length ∧
      r.intn conditions.length < conditions.length) ∧
    (∀ (now : Int) (r : Rng), (generateDummyWeatherReadings 0 now r).1 = []) := by
  refine ⟨generateDummyWeatherReadings_length, ?_, fun _ _ => rfl⟩
  intro r
  exact ⟨Rng.intn_lt r (by decide), Rng.intn_lt r (by decide)⟩

/-- Unfolding equation for `weatherHandler`, naming the intermediate draws. -/
theorem weatherHandler_eq (sizeStr : String) (now : Int) (r : Rng) :
    weatherHandler sizeStr now r =
      if 200 ≤ (getResponseStatusCode r.next).1 ∧
          (getResponseStatusCode r.next).1 < 300 then
        ([Event.sleep (r.intn 5001),
            Event.selectStatus (getResponseStatusCode r.next).1],
          (getResponseStatusCode r.next).1,
          { readings := some (generateDummyWeatherReadings
              (effectiveSize sizeStr).toNat now (getResponseStatusCode r.next).2).1
            message := "Successfully retrieved " ++
              toString (generateDummyWeatherReadings (effectiveSize sizeStr).toNat
                now (getResponseStatusCode r.next).2).1.length ++
              " weather readings." })
      else
        ([Event.sleep (r.intn 5001),
            Event.selectStatus (getResponseStatusCode r.next).1],
          (getResponseStatusCode r.next).1,
          { readings := none
            message := "An error occurred with status code " ++
              toString (getResponseStatusCode r.next).1 ++
              ". This is a dummy error for testing." }) := rfl

theorem weatherHandler_statusCode (sizeStr : String) (now : Int) (r : Rng) :
    (weatherHandler sizeStr now r).2.1 = (getResponseStatusCode r.next).1 := by
  rw [weatherHandler_eq]
  split <;> rfl

theorem success_message_ne_empty (n : Nat) :
    "Successfully retrieved " ++ toString n ++ " weather readings." ≠ "" := by
  intro he
  have hlen := congrArg String.length he
  rw [String.length_append, String.length_append] at hlen
  rw [show ("Successfully retrieved ").length = 23 from rfl] at hlen
  rw [show ("" : String).length = 0 from rfl] at hlen
  omega

theorem error_message_ne_empty (c : Int) :
    "An error occurred with status code " ++ toString c ++
      ". This is a dummy error for testing." ≠ "" := by
  intro he
  have hlen := congrArg String.length he
  rw [String.length_append, String.length_append] at hlen
  rw [show ("An error occurred with status code ").length = 35 from rfl] at hlen
  rw [show ("" : String).length = 0 from rfl] at hlen
  omega

/-- C1: on every 2xx outcome the body's readings list has exactly the
effective size many elements, and the message is
"Successfully retrieved N weather readings." with N the actual count. -/
theorem claim_C1_success_body (sizeStr : String) (now : Int) (r : Rng)
    (h2 : 200 ≤ (weatherHandler sizeStr now r).2.1)
    (h3 : (weatherHandler sizeStr now r).2.1 < 300) :
    ∃ l, (weatherHandler sizeStr now r).2.2.readings = some l ∧
      (l.length : Int) = effectiveSize sizeStr ∧
      (weatherHandler sizeStr now r).2.2.message =
        "Successfully retrieved " ++ toString l.length ++ " weather readings." := by
  rw [weatherHandler_statusCode] at h2 h3
  rw [weatherHandler_eq, if_pos ⟨h2, h3⟩]
  refine ⟨_, rfl, ?_, rfl⟩
  rw [generateDummyWeatherReadings_length]
  exact Int.toNat_of_nonneg (by linarith [(effectiveSize_bounds sizeStr).1])

/-- Witness for C1 at the concrete request `size=ab` (effective size 10) and
the all-zeros random stream, whose status code is 200. -/
theorem claim_C1_success_body_witness :
    ∃ l, (weatherHandler "ab" 0 ⟨fun _ => 0, 0⟩).2.2.readings = some l ∧
      (l.length : Int) = effectiveSize "ab" ∧
      (weatherHandler "ab" 0 ⟨fun _ => 0, 0⟩).2.2.message =
        "Successfully retrieved " ++ toString l.length ++ " weather readings." :=
  claim_C1_success_body "ab" 0 ⟨fun _ => 0, 0⟩ (by decide) (by decide)

/-- C4: the response envelope's readings field is populated — present with at
least the requested number of elements — exactly when the status code is in
`[200, 300)`, and is the nil slice (`none`) exactly otherwise. -/
theorem claim_C4_readings_iff_2xx (sizeStr : String) (now : Int) (r : Rng) :
    ((∃ l, (weatherHandler sizeStr now r).2.2.readings = some l ∧
        (effectiveSize sizeStr).toNat ≤ l.length) ↔
      (200 ≤ (weatherHandler sizeStr now r).2.1 ∧
        (weatherHandler sizeStr now r).2.1 < 300)) ∧
    ((weatherHandler sizeStr now r).2.2.readings = none ↔
      ¬(200 ≤ (weatherHandler sizeStr now r).2.1 ∧
        (weatherHandler sizeStr now r).2.1 < 300)) := by
  rw [weatherHandler_eq]
  by_cases hc : 200 ≤ (getResponseStatusCode r.next).1 ∧
      (getResponseStatusCode r.next).1 < 300
  · rw [if_pos hc]
    refine ⟨⟨fun _ => hc, fun _ => ⟨_, rfl, ?_⟩⟩,
      ⟨fun h => Option.noConfusion h, fun h => absurd hc h⟩⟩
    rw [generateDummyWeatherReadings_length]
  · rw [if_neg hc]
    exact ⟨⟨fun ⟨_, hl, _⟩ => Option.noConfusion hl, fun h => absurd h hc⟩,
      ⟨fun _ => hc, fun _ => rfl⟩⟩

theorem encodeDataResponse_none (msg : String) (h : msg ≠ "") :
    encodeDataResponse { readings := none, message := msg } =
      [("readings", Json.null), ("message", Json.str msg)] := by
  unfold encodeDataResponse
  rw [if_neg h]

theorem encodeDataResponse_some (l : List WeatherReading) (msg : String)
    (h : msg ≠ "") :
    encodeDataResponse { readings := some l, message := msg } =
      [("readings", Json.arr (l.map encodeWeatherReading)),
        ("message", Json.str msg)] := by
  unfold encodeDataResponse
  rw [if_neg h]

/-- C5 counterexample: at the concrete random stream that is constantly 70
the handler draws status code 400, yet the serialized body still carries the
`readings` key — it is not omitted from the error response. -/
theorem claim_C5_counterexample :
    (weatherHandler "" 0 ⟨fun _ => 70, 0⟩).2.1 = 400 ∧
    (encodeDataResponse (weatherHandler "" 0 ⟨fun _ => 70, 0⟩).2.2).map Prod.fst =
      ["readings", "message"] := by
  constructor
  · rfl
  · rw [weatherHandler_eq, if_neg (by decide)]
    rw [encodeDataResponse_none _ (error_message_ne_empty _)]
    rfl

/-- C5 (amended): on every non-2xx outcome the body's message is exactly
"An error occurred with status code <code>. This is a dummy error for
testing." and the readings field is the nil slice; in the serialized body the
`readings` key is present with value `null` (rather than omitted), next to
the `message` key. -/
theorem claim_C5_error_body (sizeStr : String) (now : Int) (r : Rng)
    (h : ¬(200 ≤ (weatherHandler sizeStr now r).2.1 ∧
        (weatherHandler sizeStr now r).2.1 < 300)) :
    (weatherHandler sizeStr now r).2.2.message =
      "An error occurred with status code " ++
        toString (weatherHandler sizeStr now r).2.1 ++
        ". This is a dummy error for testing." ∧
    (weatherHandler sizeStr now r).2.2.readings = none ∧
    (encodeDataResponse (weatherHandler sizeStr now r).2.2).lookup "readings" =
      some Json.null ∧
    (encodeDataResponse (weatherHandler sizeStr now r).2.2).map Prod.fst =
      ["readings", "message"] := by
  rw [weatherHandler_statusCode] at h
  rw [weatherHandler_statusCode, weatherHandler_eq, if_neg h]
  rw [encodeDataResponse_none _ (error_message_ne_empty _)]
  exact ⟨rfl, rfl, rfl, rfl⟩

/-- Witness for C5 (amended) at the constant-70 random stream (status 400). -/
theorem claim_C5_error_body_witness :
    (weatherHandler "" 0 ⟨fun _ => 70, 0⟩).2.2.message =
      "An error occurred with status code " ++
        toString (weatherHandler "" 0 ⟨fun _ => 70, 0⟩).2.1 ++
        ". This is a dummy error for testing." ∧
    (weatherHandler "" 0 ⟨fun _ => 70, 0⟩).2.2.readings = none ∧
    (encodeDataResponse (weatherHandler "" 0 ⟨fun _ => 70, 0⟩).2.2).lookup
      "readings" = some Json.null ∧
    (encodeDataResponse (weatherHandler "" 0 ⟨fun _ => 70, 0⟩).2.2).map Prod.fst =
      ["readings", "message"] :=
  claim_C5_error_body "" 0 ⟨fun _ => 70, 0⟩ (by decide)

/-- C6 counterexample: at the concrete random stream drawing `Intn(35) = 34`
and `Float64() = 1 − 2^-53`, the binary64 sum `39.0 + (1 − 2^-53)` rounds to
exactly `40.0`, so the generated temperature is not below 40 — refuting the
claimed bound `[5.0, 40.0)`. -/
theorem claim_C6_counterexample :
    ¬ (∀ (count : Nat) (now : Int) (r : Rng) (w : WeatherReading),
        w ∈ (generateDummyWeatherReadings count now r).1 → w.temperature < 40) := by
  intro h
  have hlist : (generateDummyWeatherReadings 1 0 ⟨cexStream, 0⟩).1 =
      [{ city := cities.getD (cexStream 0 % 8) ""
         timestamp := 0 + (((cexStream 1 % 24 : Nat) : Int) - 12) * hourNs
         temperature := roundF64 ((((cexStream 2 % 35 : Nat) : ℚ) + 5) +
           ((cexStream 3 % 2 ^ 53 : Nat) : ℚ) / 2 ^ 53)
         humidity := ((cexStream 4 % 80 : Nat) : Int) + 20
         condition := conditions.getD (cexStream 5 % 7) "" }] := rfl
  have hmem := h 1 0 ⟨cexStream, 0⟩ _ (by rw [hlist]; exact List.mem_singleton_self _)
  dsimp only at hmem
  have hargeq : ((((cexStream 2 % 35 : Nat) : ℚ) + 5) +
      ((cexStream 3 % 2 ^ 53 : Nat) : ℚ) / 2 ^ 53) = (40 * 2 ^ 53 - 1) / 2 ^ 53 := by
    rw [show (cexStream 2 % 35 : Nat) = 34 from rfl]
    rw [show (cexStream 3 % 2 ^ 53 : Nat) = 9007199254740991 from rfl]
    push_cast
    norm_num
  rw [hargeq, roundF64_at_max] at hmem
  exact absurd hmem (by norm_num)

/-- C6 (amended): every generated reading has temperature in `[5, 40]` — the
upper endpoint `40.0` is attainable because the float64 addition rounds
`39.0 + (1 − 2^-53)` up to `40.0` — humidity an integer in `[20, 99]`, city
in the fixed 8-city set and condition in the fixed 7-condition set, for any
count and any random draws. -/
theorem claim_C6_reading_bounds (count : Nat) (now : Int) (r : Rng)
    (w : WeatherReading) (hw : w ∈ (generateDummyWeatherReadings count now r).1) :
    5 ≤ w.temperature ∧ w.temperature ≤ 40 ∧
    20 ≤ w.humidity ∧ w.humidity ≤ 99 ∧
    w.city ∈ cities ∧ w.condition ∈ conditions := by
  obtain ⟨hc, _, _, h1, h2, h3, h4, hcond⟩ :=
    generateDummyWeatherReadings_bounds count now r w hw
  exact ⟨h1, h2, h3, h4, hc, hcond⟩

/-- Witness for C6 at the all-zeros random stream: the one reading generated
is ("New York", now − 12h, 5 °C, 20 %, "Sunny"). -/
theorem claim_C6_reading_bounds_witness :
    5 ≤ (⟨"New York", -43200000000000, roundF64 5, 20, "Sunny"⟩ :
      WeatherReading).temperature ∧
    (⟨"New York", -43200000000000, roundF64 5, 20, "Sunny"⟩ :
      WeatherReading).temperature ≤ 40 ∧
    20 ≤ (⟨"New York", -43200000000000, roundF64 5, 20, "Sunny"⟩ :
      WeatherReading).humidity ∧
    (⟨"New York", -43200000000000, roundF64 5, 20, "Sunny"⟩ :
      WeatherReading).humidity ≤ 99 ∧
    (⟨"New York", -43200000000000, roundF64 5, 20, "Sunny"⟩ :
      WeatherReading).city ∈ cities ∧
    (⟨"New York", -43200000000000, roundF64 5, 20, "Sunny"⟩ :
      WeatherReading).condition ∈ conditions :=
  claim_C6_reading_bounds 1 0 ⟨fun _ => 0, 0⟩
    ⟨"New York", -43200000000000, roundF64 5, 20, "Sunny"⟩ (by
      have hlist : (generateDummyWeatherReadings 1 0 ⟨fun _ => 0, 0⟩).1 =
          [⟨"New York", -43200000000000, roundF64 5, 20, "Sunny"⟩] := by
        norm_num [generateDummyWeatherReadings, Rng.intn, Rng.next, Rng.float64,
          cities, conditions, hourNs]
      rw [hlist]
      exact List.mem_singleton_self _)

/-- C7 counterexample: no random draw can ever make a reading's timestamp
offset from `now` equal `+12h` — the draw is `Intn(24) − 12 ∈ [−12, 11]`
hours — refuting the claim that every value of `−12h..+12h` is attained. -/
theorem claim_C7_counterexample :
    ¬ ∃ (count : Nat) (now : Int) (r : Rng) (w : WeatherReading),
        w ∈ (generateDummyWeatherReadings count now r).1 ∧
        w.timestamp - now = 12 * hourNs := by
  rintro ⟨count, now, r, w, hw, h12⟩
  obtain ⟨_, _, hle, _⟩ := generateDummyWeatherReadings_bounds count now r w hw
  rw [h12] at hle
  unfold hourNs at hle
  omega

/-- C7 (amended): every generated timestamp offset lies in `[−12h, +11h]`
(hence within `[−12h, +12h]`), and every whole-hour value in `{−12, ..., +11}`
is attained by some random input; `+12h` itself is never produced. -/
theorem claim_C7_offset_range :
    (∀ (count : Nat) (now : Int) (r : Rng) (w : WeatherReading),
      w ∈ (generateDummyWeatherReadings count now r).1 →
      (-12) * hourNs ≤ w.timestamp - now ∧ w.timestamp - now ≤ 11 * hourNs) ∧
    (∀ k : Int, -12 ≤ k → k ≤ 11 →
      ∃ (r : Rng) (w : WeatherReading),
        w ∈ (generateDummyWeatherReadings 1 0 r).1 ∧ w.timestamp = k * hourNs) := by
  constructor
  · intro count now r w hw
    obtain ⟨_, hge, hle, _⟩ := generateDummyWeatherReadings_bounds count now r w hw
    exact ⟨hge, hle⟩
  · intro k hk1 hk2
    set v : Nat := (k + 12).toNat with hv
    have hlist : (generateDummyWeatherReadings 1 0 ⟨fun _ => v, 0⟩).1 =
        [{ city := cities.getD (v % 8) ""
           timestamp := 0 + (((v % 24 : Nat) : Int) - 12) * hourNs
           temperature := roundF64 ((((v % 35 : Nat) : ℚ) + 5) +
             ((v % 2 ^ 53 : Nat) : ℚ) / 2 ^ 53)
           humidity := ((v % 80 : Nat) : Int) + 20
           condition := conditions.getD (v % 7) "" }] := rfl
    refine ⟨⟨fun _ => v, 0⟩, _, by rw [hlist]; exact List.mem_singleton_self _, ?_⟩
    have hv24 : v % 24 = v := Nat.mod_eq_of_lt (by omega)
    show (0 : Int) + (((v % 24 : Nat) : Int) - 12) * hourNs = k * hourNs
    rw [hv24]
    have hvk : ((v : Int)) = k + 12 := by omega
    rw [hvk]
    ring

/-- C8: the handler's event trace is exactly one `Sleep` call carrying the
drawn delay, followed by the status selection; the delay never exceeds
5000 ms, and every duration in `[0, 5000]` is attainable by some stream. -/
theorem claim_C8_delay (sizeStr : String) (now : Int) (r : Rng) :
    ((weatherHandler sizeStr now r).1 =
      [Event.sleep (r.intn 5001),
        Event.selectStatus (weatherHandler sizeStr now r).2.1]) ∧
    r.intn 5001 ≤ 5000 ∧
    (∀ d : Nat, d ≤ 5000 → ∃ r0 : Rng, Rng.intn r0 5001 = d) := by
  refine ⟨?_, Nat.lt_succ_iff.mp (Rng.intn_lt r (by norm_num)), ?_⟩
  · rw [weatherHandler_statusCode, weatherHandler_eq]
    split <;> rfl
  · intro d hd
    refine ⟨⟨fun _ => d, 0⟩, ?_⟩
    show d % 5001 = d
    exact Nat.mod_eq_of_lt (by omega)

/-- C10: the serialized body's keys are always exactly `readings` then
`message`: `readings` lacks `omitempty` so the nil slice of the error path
serializes as `null` instead of being dropped, and `message`, though tagged
`omitempty`, is never omitted because both paths set it non-empty. -/
theorem claim_C10_serialized_keys (sizeStr : String) (now : Int) (r : Rng) :
    ((encodeDataResponse (weatherHandler sizeStr now r).2.2).map Prod.fst =
      ["readings", "message"]) ∧
    ((weatherHandler sizeStr now r).2.2.readings = none →
      (encodeDataResponse (weatherHandler sizeStr now r).2.2).lookup "readings" =
        some Json.null) ∧
    (weatherHandler sizeStr now r).2.2.message ≠ "" := by
  rw [weatherHandler_eq]
  split
  · rw [encodeDataResponse_some _ _ (success_message_ne_empty _)]
    exact ⟨rfl, fun h => Option.noConfusion h, success_message_ne_empty _⟩
  · rw [encodeDataResponse_none _ (error_message_ne_empty _)]
    exact ⟨rfl, fun _ => rfl, error_message_ne_empty _⟩

end GoWeather
